import Mathlib

/-!
Verification of the `qiskit-ibm-runtime` excerpt: a shallow embedding of
`src/qiskit_ibm_runtime/qiskit_runtime_service.py` (the `QiskitRuntimeService`
facade constructor) and
`src/qiskit_ibm_runtime/fake_provider/backends/yorktown/fake_yorktown.py`
(the two fake-backend descriptor classes), with theorems settling the
specification's claims about them.
-/

/-- A Python runtime value, as far as the shown code manipulates values:
`None`, booleans, integers, strings, and otherwise-opaque objects
distinguished by an identity tag (dicts, proxy configurations, ...). The
shown code never inspects the values it receives, so the opaque `obj`
constructor faithfully covers every other Python object. -/
inductive PyValue where
  | none
  | bool (b : Bool)
  | int (n : Int)
  | str (s : String)
  | obj (tag : Nat)
  deriving DecidableEq, Repr

/-- A Python exception, identified by its class name. -/
abbrev PyExc := String

/-- Association-list lookup for attribute / environment dictionaries. -/
def lookupAttr (m : List (String × PyValue)) (k : String) : Option PyValue :=
  match m with
  | [] => Option.none
  | (k', v) :: rest => if k' = k then some v else lookupAttr rest k

/-- Association-list update (first binding wins on lookup, so updating
replaces the first binding or appends a fresh one). -/
def setAttr (m : List (String × PyValue)) (k : String) (v : PyValue) :
    List (String × PyValue) :=
  match m with
  | [] => [(k, v)]
  | (k', v') :: rest =>
      if k' = k then (k, v) :: rest else (k', v') :: setAttr rest k v

/-- An expression of the tiny fragment of Python the constructor body needs:
a literal, or a reference to one of the constructor's parameters. -/
inductive Expr where
  | lit (v : PyValue)
  | param (n : String)
  deriving DecidableEq, Repr

/-- A statement of the constructor-body fragment: assignment to an instance
attribute, assignment to a class attribute, the delegated base-class
constructor call `super().__init__(...)`, or `raise`. -/
inductive Stmt where
  | assignSelf (attr : String) (e : Expr)
  | assignClass (attr : String) (e : Expr)
  | callSuperInit (args : List Expr)
  | raiseExc (exc : PyExc)
  deriving DecidableEq, Repr

/-- Evaluate an expression under the parameter environment; an absent
parameter reads as `None` (matching the defaults of the source signature). -/
def evalExpr (env : List (String × PyValue)) : Expr → PyValue
  | .lit v => v
  | .param n => (lookupAttr env n).getD PyValue.none

/-- The machine state during construction: the class's attribute dictionary,
the instance's attribute dictionary (`self.__dict__`), and an abstract world
`W` capturing every effect outside the object (I/O, sessions, ...). -/
structure ExecState (W : Type) where
  classAttrs : List (String × PyValue)
  selfAttrs : List (String × PyValue)
  world : W
  deriving Repr

/-- The semantics of the external base-class constructor
(`FakeProviderForBackendV2.__init__`, not part of the excerpt): given the
positional argument values passed at the call site, the current world and the
current instance attributes, it either returns the new world and instance
attributes or raises. It is kept fully abstract: the theorems below hold for
every base-class behaviour. -/
def BaseInit (W : Type) : Type :=
  List PyValue → W → List (String × PyValue) →
    Except PyExc (W × List (String × PyValue))

/-- Execute a single constructor-body statement. -/
def execStmt {W : Type} (base : BaseInit W) (env : List (String × PyValue)) :
    Stmt → ExecState W → Except PyExc (ExecState W)
  | .assignSelf a e, s =>
      Except.ok { s with selfAttrs := setAttr s.selfAttrs a (evalExpr env e) }
  | .assignClass a e, s =>
      Except.ok { s with classAttrs := setAttr s.classAttrs a (evalExpr env e) }
  | .callSuperInit es, s =>
      match base (es.map (evalExpr env)) s.world s.selfAttrs with
      | .ok (w', sa') => Except.ok { s with world := w', selfAttrs := sa' }
      | .error e => Except.error e
  | .raiseExc e, _ => Except.error e

/-- Execute a statement list in order; a raised exception aborts the rest. -/
def execStmts {W : Type} (base : BaseInit W) (env : List (String × PyValue)) :
    List Stmt → ExecState W → Except PyExc (ExecState W)
  | [], s => Except.ok s
  | st :: rest, s =>
      match execStmt base env st s with
      | .ok s' => execStmts base env rest s'
      | .error e => Except.error e

/-- The nine optional parameters of `QiskitRuntimeService.__init__`
(source lines 121-132); every default is `None`. The Python parameter
`instance` is spelled `instance_` because `instance` is a Lean keyword. -/
structure InitArgs where
  channel : PyValue := PyValue.none
  token : PyValue := PyValue.none
  url : PyValue := PyValue.none
  filename : PyValue := PyValue.none
  name : PyValue := PyValue.none
  instance_ : PyValue := PyValue.none
  proxies : PyValue := PyValue.none
  verify : PyValue := PyValue.none
  channel_strategy : PyValue := PyValue.none
  deriving DecidableEq, Repr

/-- The parameter environment the constructor body runs under. -/
def initEnv (a : InitArgs) : List (String × PyValue) :=
  [("channel", a.channel), ("token", a.token), ("url", a.url),
   ("filename", a.filename), ("name", a.name), ("instance", a.instance_),
   ("proxies", a.proxies), ("verify", a.verify),
   ("channel_strategy", a.channel_strategy)]

/-- The body of `QiskitRuntimeService.__init__` (source line 135): the single
statement `super().__init__()` — a base-class constructor call with an empty
argument list. -/
def initBody : List Stmt := [Stmt.callSuperInit []]

/-- The class-level attribute dictionary of `QiskitRuntimeService` at class
declaration time (source line 119): `global_service = None`. -/
def qiskitRuntimeServiceClassAttrs : List (String × PyValue) :=
  [("global_service", PyValue.none)]

/-- Construct a `QiskitRuntimeService`: run the constructor body on a fresh
instance (empty `self.__dict__`) under the given class attributes and world. -/
def runInit {W : Type} (base : BaseInit W) (a : InitArgs)
    (cls : List (String × PyValue)) (w : W) : Except PyExc (ExecState W) :=
  execStmts base (initEnv a) initBody
    { classAttrs := cls, selfAttrs := [], world := w }

/-- The exception (if any) carried by an `Except` outcome. -/
def errValue {ε α : Type} : Except ε α → Option ε
  | .error e => some e
  | .ok _ => Option.none

/-- Constructing the superclass `FakeProviderForBackendV2` with no arguments,
in the spec's words ("constructing its superclass ... with no arguments"):
the bare base-class constructor applied to an empty argument list and a fresh
instance. Stated from the spec for the refinement claim, to be compared with
`runInit`. -/
def baseConstructNoArgs {W : Type} (base : BaseInit W) (w : W) :
    Except PyExc (W × List (String × PyValue)) :=
  base [] w []

/-- A base-constructor instrumentation over a log world: it records the
positional-argument list of every delegated base-constructor call and
performs no other effect. Used to observe what the shown code forwards. -/
def loggingBaseInit : BaseInit (List (List PyValue)) :=
  fun callArgs w selfAttrs => Except.ok (w ++ [callArgs], selfAttrs)

/-- The argument lists received by the base-class constructor when
`QiskitRuntimeService` is constructed with arguments `a` (one list entry per
delegated call, recorded in order). -/
def superCallLog (a : InitArgs) : List (List PyValue) :=
  match runInit loggingBaseInit a qiskitRuntimeServiceClassAttrs [] with
  | .ok s => s.world
  | .error _ => []

/-- Construct `QiskitRuntimeService` once for each argument record in the
list, threading the class attributes and the world; a raised exception aborts
the remaining constructions. -/
def constructMany {W : Type} (base : BaseInit W)
    (cls : List (String × PyValue)) (w : W) :
    List InitArgs → List (String × PyValue) × W
  | [] => (cls, w)
  | a :: rest =>
      match runInit base a cls w with
      | .ok s' => constructMany base s'.classAttrs s'.world rest
      | .error _ => (cls, w)

/-- The static attributes declared by a fake-backend descriptor class:
directory of the defining module, configuration filename, properties
filename, backend name. -/
structure FakeBackendDescriptor where
  dirname : String
  conf_filename : String
  props_filename : String
  backend_name : String
  deriving DecidableEq, Repr

/-- The `__file__` of the module defining the descriptors. -/
def yorktownModuleFile : String :=
  "src/qiskit_ibm_runtime/fake_provider/backends/yorktown/fake_yorktown.py"

/-- `os.path.dirname` on POSIX paths: everything before the last slash
(empty when there is no slash). -/
def osPathDirname (p : String) : String :=
  match (p.toList.reverse.dropWhile (fun c => c ≠ '/')) with
  | [] => ""
  | _ :: rest => String.mk rest.reverse

/-- `os.path.join` for one component on POSIX paths. -/
def osPathJoin (d f : String) : String :=
  if f.toList.head? = some '/' then f
  else if d = "" then f
  else if d.toList.getLast? = some '/' then d ++ f
  else d ++ "/" ++ f

/-- The class attributes of `FakeYorktownV2` (source lines 33-36):
`dirname = os.path.dirname(__file__)`, `conf_filename = "conf_yorktown.json"`,
`props_filename = "props_yorktown.json"`, `backend_name = "ibm_yorktown"`. -/
def FakeYorktownV2 : FakeBackendDescriptor :=
  { dirname := osPathDirname yorktownModuleFile
    conf_filename := "conf_yorktown.json"
    props_filename := "props_yorktown.json"
    backend_name := "ibm_yorktown" }

/-- The class attributes of `FakeYorktown` (source lines 51-54), declared by
the same four assignments as `FakeYorktownV2`. -/
def FakeYorktown : FakeBackendDescriptor :=
  { dirname := osPathDirname yorktownModuleFile
    conf_filename := "conf_yorktown.json"
    props_filename := "props_yorktown.json"
    backend_name := "ibm_yorktown" }

/-- The attribute dictionary a descriptor class declares. -/
def descriptorAttrs (d : FakeBackendDescriptor) : List (String × PyValue) :=
  [("dirname", PyValue.str d.dirname),
   ("conf_filename", PyValue.str d.conf_filename),
   ("props_filename", PyValue.str d.props_filename),
   ("backend_name", PyValue.str d.backend_name)]

/-- A top-level statement of a Python module, as far as the shown module
needs: declaring a class with its class-body attribute assignments, or
mutating an attribute of an already-declared class. -/
inductive ModStmt where
  | declClass (cname : String) (attrs : List (String × PyValue))
  | setClassAttr (cname attr : String) (v : PyValue)
  deriving DecidableEq, Repr

/-- Whether a module statement mutates a class attribute after declaration. -/
def ModStmt.mutates : ModStmt → Bool
  | .declClass _ _ => false
  | .setClassAttr _ _ _ => true

/-- Association-list lookup for the module's class table. -/
def lookupClass (env : List (String × List (String × PyValue)))
    (c : String) : Option (List (String × PyValue)) :=
  match env with
  | [] => Option.none
  | (c', a) :: rest => if c' = c then some a else lookupClass rest c

/-- Execute one module statement on the class table. -/
def evalModStmt (env : List (String × List (String × PyValue))) :
    ModStmt → List (String × List (String × PyValue))
  | .declClass c attrs => env ++ [(c, attrs)]
  | .setClassAttr c a v =>
      env.map (fun p => if p.1 = c then (p.1, setAttr p.2 a v) else p)

/-- Execute a whole module body from an empty class table. -/
def evalModule (stmts : List ModStmt) :
    List (String × List (String × PyValue)) :=
  stmts.foldl evalModStmt []

/-- The top-level body of `fake_yorktown.py`: exactly two class declarations
(source lines 21-36 and 39-54) and no further statement. -/
def fakeYorktownModule : List ModStmt :=
  [ModStmt.declClass "FakeYorktownV2" (descriptorAttrs FakeYorktownV2),
   ModStmt.declClass "FakeYorktown" (descriptorAttrs FakeYorktown)]

/-- Modelled from the spec: the contents of the directory containing
`fake_yorktown.py` are not part of the excerpt (only the module itself is
under `src/`). Spec section 6 states the file layout convention: "each
fake-backend module expects two sibling JSON files — a backend configuration
document and a backend properties document — located in the same directory as
the Python module defining the descriptor". -/
def yorktownDirFiles : List String :=
  ["fake_yorktown.py", "conf_yorktown.json", "props_yorktown.json"]

/-- Resolve a declared filename against the descriptor's directory, as the
external base-class loader does when opening the file. -/
def resolvedPath (d : FakeBackendDescriptor) (fname : String) : String :=
  osPathJoin d.dirname fname

/-- Whether a filename names an existing file of the module's directory. -/
def fileExistsInModuleDir (fname : String) : Bool :=
  yorktownDirFiles.contains fname

/-- Key lemma: the constructor body is the single delegated call
`super().__init__()`, so construction is exactly the base-class constructor
applied to an empty argument list; the class attributes come through
untouched and the instance attributes are exactly those the base produced. -/
theorem runInit_eq {W : Type} (base : BaseInit W) (a : InitArgs)
    (cls : List (String × PyValue)) (w : W) :
    runInit base a cls w =
      (base [] w []).map (fun p =>
        { classAttrs := cls, selfAttrs := p.2, world := p.1 }) := by
  cases h : base [] w [] with
  | ok p =>
      cases p with
      | mk w' sa => simp [runInit, execStmts, initBody, execStmt, h, Except.map]
  | error e => simp [runInit, execStmts, initBody, execStmt, h, Except.map]

/-- A successful construction leaves the class attributes exactly as given. -/
theorem runInit_ok_classAttrs {W : Type} (base : BaseInit W) (a : InitArgs)
    (cls : List (String × PyValue)) (w : W) (s' : ExecState W)
    (h : runInit base a cls w = Except.ok s') : s'.classAttrs = cls := by
  rw [runInit_eq] at h
  cases hb : base [] w [] with
  | ok p =>
      rw [hb] at h
      simp [Except.map] at h
      rw [← h]
  | error e =>
      rw [hb] at h
      simp [Except.map] at h

/-- Any sequence of constructions leaves the class attributes unchanged. -/
theorem constructMany_classAttrs {W : Type} (base : BaseInit W)
    (cls : List (String × PyValue)) (w : W) (l : List InitArgs) :
    (constructMany base cls w l).1 = cls := by
  induction l generalizing cls w with
  | nil => rfl
  | cons a rest ih =>
      unfold constructMany
      cases h : runInit base a cls w with
      | ok s' => rw [ih, runInit_ok_classAttrs base a cls w s' h]
      | error e => rfl

/-- Claim C1, counterexample: constructing `QiskitRuntimeService` with the
token value `"secret"` supplied, the instrumented base-class constructor is
called exactly once with the empty argument list, and the supplied token
value is not among the values it receives — the argument is not forwarded. -/
theorem init_token_not_forwarded :
    superCallLog { token := PyValue.str "secret" } = [[]] ∧
      PyValue.str "secret" ∉ (superCallLog { token := PyValue.str "secret" }).flatten := by
  decide

/-- Claim C1, amended: `QiskitRuntimeService.__init__` accepts the nine
optional arguments but forwards none of them to the base-class constructor:
for every combination of argument values, the delegation is a single call
carrying the empty argument list, so every supplied value is discarded. -/
theorem init_forwards_no_arguments (a : InitArgs) :
    superCallLog a = [[]] := rfl

/-- Claim C2: for every combination of constructor arguments, constructing
`QiskitRuntimeService` produces exactly the state produced by constructing
its superclass `FakeProviderForBackendV2` with no arguments; the constructor
delegates entirely to the superclass and contributes no state of its own. -/
theorem qiskitRuntimeService_state_eq_base_noargs {W : Type} (base : BaseInit W)
    (a : InitArgs) (cls : List (String × PyValue)) (w : W) :
    runInit base a cls w =
      (baseConstructNoArgs base w).map (fun p =>
        { classAttrs := cls, selfAttrs := p.2, world := p.1 }) :=
  runInit_eq base a cls w

/-- Claim C3: constructing `QiskitRuntimeService` raises no exception in the
shown constructor code apart from the delegation: for any argument values
(the no-argument case included), the raised exception, if any, is exactly the
one raised by the base-class constructor called with no arguments; no
exception originates from the lines shown. -/
theorem init_raises_only_base_exception {W : Type} (base : BaseInit W)
    (a : InitArgs) (cls : List (String × PyValue)) (w : W) :
    errValue (runInit base a cls w) = errValue (baseConstructNoArgs base w) := by
  rw [runInit_eq]
  unfold baseConstructNoArgs
  cases base [] w [] <;> rfl

/-- Claim C4: for any two argument records `a` and `b`, `QiskitRuntimeService`
constructed with `a` and constructed with `b` are in equal states: the
constructed object is independent of every constructor argument, the
credentials (token, url, instance) included. -/
theorem constructed_state_independent_of_arguments {W : Type}
    (base : BaseInit W) (a b : InitArgs) (cls : List (String × PyValue))
    (w : W) : runInit base a cls w = runInit base b cls w := by
  rw [runInit_eq, runInit_eq]

/-- Claim C9: the shown constructor code performs no validation, no
transformation of its arguments and no side effect of its own: the effect on
the world is exactly the base-class constructor call's effect, the instance
attributes are exactly those the base-class constructor produced, and the
class attributes (all other state) are unchanged. -/
theorem init_no_own_effect {W : Type} (base : BaseInit W) (a : InitArgs)
    (cls : List (String × PyValue)) (w : W) :
    (runInit base a cls w).map (fun s => s.world) = (base [] w []).map Prod.fst ∧
    (runInit base a cls w).map (fun s => s.classAttrs)
      = (base [] w []).map (fun _ => cls) ∧
    (runInit base a cls w).map (fun s => s.selfAttrs)
      = (base [] w []).map Prod.snd := by
  refine ⟨?_, ?_, ?_⟩ <;> (rw [runInit_eq]; cases base [] w [] <;> rfl)

/-- Claim C10: the class-level attribute `QiskitRuntimeService.global_service`
is `None` initially, and constructing any number of instances with any
arguments leaves it unchanged (still `None`). -/
theorem global_service_stays_none {W : Type} (base : BaseInit W) (w : W)
    (l : List InitArgs) :
    lookupAttr qiskitRuntimeServiceClassAttrs "global_service"
      = some PyValue.none ∧
    lookupAttr (constructMany base qiskitRuntimeServiceClassAttrs w l).1
        "global_service" = some PyValue.none := by
  refine ⟨rfl, ?_⟩
  rw [constructMany_classAttrs]
  rfl

/-- Claim C5: for both descriptor classes the declared backend name is the
non-empty string `"ibm_yorktown"`, fixed at class-declaration time, and the
attribute the base-class loader reads after module evaluation is that very
string, unchanged. -/
theorem backend_name_ibm_yorktown :
    FakeYorktownV2.backend_name = "ibm_yorktown" ∧
    FakeYorktown.backend_name = "ibm_yorktown" ∧
    FakeYorktownV2.backend_name ≠ "" ∧
    FakeYorktown.backend_name ≠ "" ∧
    lookupAttr ((lookupClass (evalModule fakeYorktownModule)
        "FakeYorktownV2").getD []) "backend_name"
      = some (PyValue.str "ibm_yorktown") ∧
    lookupAttr ((lookupClass (evalModule fakeYorktownModule)
        "FakeYorktown").getD []) "backend_name"
      = some (PyValue.str "ibm_yorktown") := by
  decide

/-- Claim C6: the two descriptor classes declare pairwise equal static
attributes (dirname, conf_filename, props_filename, backend_name): the two
alternate backend-interface versions describe one and the same device. -/
theorem fake_yorktown_descriptors_equal :
    FakeYorktownV2.dirname = FakeYorktown.dirname ∧
    FakeYorktownV2.conf_filename = FakeYorktown.conf_filename ∧
    FakeYorktownV2.props_filename = FakeYorktown.props_filename ∧
    FakeYorktownV2.backend_name = FakeYorktown.backend_name ∧
    FakeYorktownV2 = FakeYorktown :=
  ⟨rfl, rfl, rfl, rfl, rfl⟩

/-- Claim C7: for both descriptor classes, the declared configuration
filename `"conf_yorktown.json"` and properties filename
`"props_yorktown.json"` name existing files of the module's directory, and
resolving each against the declared `dirname` yields a path lying in the same
directory as the Python module defining the descriptor. -/
theorem yorktown_files_exist_in_module_dir :
    fileExistsInModuleDir FakeYorktownV2.conf_filename = true ∧
    fileExistsInModuleDir FakeYorktownV2.props_filename = true ∧
    fileExistsInModuleDir FakeYorktown.conf_filename = true ∧
    fileExistsInModuleDir FakeYorktown.props_filename = true ∧
    osPathDirname (resolvedPath FakeYorktownV2 FakeYorktownV2.conf_filename)
      = osPathDirname yorktownModuleFile ∧
    osPathDirname (resolvedPath FakeYorktownV2 FakeYorktownV2.props_filename)
      = osPathDirname yorktownModuleFile ∧
    osPathDirname (resolvedPath FakeYorktown FakeYorktown.conf_filename)
      = osPathDirname yorktownModuleFile ∧
    osPathDirname (resolvedPath FakeYorktown FakeYorktown.props_filename)
      = osPathDirname yorktownModuleFile := by
  decide

/-- Claim C8: the descriptor data is immutable: the module body of
`fake_yorktown.py` contains no statement mutating a class attribute, and
after evaluating the whole module each class's attributes are exactly the
values fixed at class-declaration time. -/
theorem fake_yorktown_attrs_immutable :
    fakeYorktownModule.all (fun s => !s.mutates) = true ∧
    lookupClass (evalModule fakeYorktownModule) "FakeYorktownV2"
      = some (descriptorAttrs FakeYorktownV2) ∧
    lookupClass (evalModule fakeYorktownModule) "FakeYorktown"
      = some (descriptorAttrs FakeYorktown) := by
  decide
